import Mathlib

/-!
Verification of the trace-comparison engine of PandoraTrace
(`src/pandora_trace/comparison.py`, class `TraceComparator`).

The Python code is shallowly embedded as executable Lean definitions:

* SQL templates are Python format strings; placeholder scanning
  (`string.Formatter().parse`) and substitution (`str.format`) are embedded
  as scanners over the character list of the template.  The repository's
  templates use only plain `\x7bname\x7d` placeholders, so brace escapes,
  conversions and format specs of the general Python format language are not
  modelled; an unterminated opening brace (a `ValueError` in Python, never
  produced by the repository's templates) is treated as trailing text.
* The SQLite database behind `pd.read_sql_query` is abstracted as a pure
  function from the formatted query string to the returned rows, a list of
  (feature value, count) pairs.
* Numeric values (counts, probabilities, distances) are embedded as exact
  rationals `ℚ`.  Lean's total division `x / 0 = 0` coincides with the
  observable behaviour of the pandas pipeline for the `0 / 0` case (pandas
  produces NaN which `.fillna(0)` immediately replaces by `0`); IEEE
  infinities (a nonzero count over a zero count sum) have no counterpart in
  this rational model.
* Python exceptions raised by `str.format` (`KeyError` for a placeholder
  missing from the keyword arguments, `TypeError` for the duplicate
  `table_name` keyword argument) are embedded with `Except FormatError`.
* Python's `dict` is embedded as an association list; insertion keeps the
  position of an existing key, as `dict` does.
-/

deriving instance DecidableEq for Except

/-- `QueryTemplate` from `comparison.py`: a named SQL query template for trace
comparison. -/
structure QueryTemplate where
  name : String
  query : String
  relevantIncidents : List String
  description : Option String := none
deriving DecidableEq, Repr

/-- Errors raised by `str.format` inside `_execute_query`:
`missingParameter` is Python's `KeyError` for a placeholder absent from the
keyword arguments; `duplicateTableName` is Python's `TypeError` raised by
`query.format(table_name=table, **params)` when `params` already binds
`table_name`. -/
inductive FormatError where
  | missingParameter (name : String)
  | duplicateTableName
deriving DecidableEq, Repr

/-- Placeholder scanner, embedding the extraction
`\x7bt[1] for t in Formatter().parse(query) if t[1] is not None\x7d` of
`_iterate_parameters`.  `none` mode is literal text; `some acc` mode is
inside a placeholder, accumulating its (reversed) name. -/
def scanPH : Option (List Char) → List Char → List String
  | _, [] => []
  | none, c :: rest =>
      if c = '\x7b' then scanPH (some []) rest else scanPH none rest
  | some acc, c :: rest =>
      if c = '\x7d' then String.mk acc.reverse :: scanPH none rest
      else scanPH (some (c :: acc)) rest

/-- The placeholder names occurring in a template's text (with multiplicity;
the Python code only uses this through set membership). -/
def scanPlaceholders (query : String) : List String :=
  scanPH none query.data

/-- First-match association-list lookup for the keyword arguments of
`str.format`. -/
def lookupStr (k : String) : List (String × String) → Option String
  | [] => none
  | (k2, v) :: rest => if k2 = k then some v else lookupStr k rest

/-- Substitution core of `str.format`: replaces every `\x7bname\x7d` by the bound
value, raising `missingParameter` (Python `KeyError`) on the first
placeholder with no binding. -/
def formatCore (b : List (String × String)) :
    Option (List Char) → List Char → Except FormatError (List Char)
  | _, [] => Except.ok []
  | none, c :: rest =>
      if c = '\x7b' then formatCore b (some []) rest
      else (formatCore b none rest).map (fun t => c :: t)
  | some acc, c :: rest =>
      if c = '\x7d' then
        match lookupStr (String.mk acc.reverse) b with
        | some v => (formatCore b none rest).map (fun t => v.data ++ t)
        | none => Except.error (FormatError.missingParameter (String.mk acc.reverse))
      else formatCore b (some (c :: acc)) rest

/-- `_execute_query`: formats the template with
`query.format(table_name=table, **params)` and runs it against the data
source `db` (the abstraction of `pd.read_sql_query` over the fixed SQLite
connection).  A `table_name` key inside `params` is Python's duplicate
keyword argument `TypeError`. -/
def executeQuery {α : Type} (db : String → List (α × ℚ)) (query table : String)
    (params : List (String × String)) : Except FormatError (List (α × ℚ)) :=
  if params.any (fun p => p.1 = "table_name") then
    Except.error FormatError.duplicateTableName
  else
    match formatCore (("table_name", table) :: params) none query.data with
    | Except.ok cs => Except.ok (db (String.mk cs))
    | Except.error e => Except.error e

/-- `_inner` of `_iterate_parameters`: recursive cartesian-product expansion,
accumulating the partial binding (Python's `partial.copy()` followed by a
fresh key insertion is an append, the relevant names being distinct). -/
def innerBindings : List (String × String) → List (String × List String) →
    List (List (String × String))
  | acc, [] => [acc]
  | acc, (name, values) :: rest =>
      values.flatMap (fun v => innerBindings (acc ++ [(name, v)]) rest)

/-- The catalog entries whose names occur in the template text, in catalog
order: `relevant_params = [p for p in parameters if p in query_params]`
(with each name carrying its candidate list, as `_inner` reads
`parameters[name]`). -/
def relevantParams (query : String) (parameters : List (String × List String)) :
    List (String × List String) :=
  parameters.filter (fun p => decide (p.1 ∈ scanPlaceholders query))

/-- `_iterate_parameters`: all parameter bindings for a query, the cartesian
product of the candidate lists of the catalog parameters occurring in the
template. -/
def iterateParameters (query : String) (parameters : List (String × List String)) :
    List (List (String × String)) :=
  innerBindings [] (relevantParams query parameters)

/-- Spec-side cartesian product ("produce every combination of one value per
relevant parameter name, first parameter varies slowest"), stated by direct
recursion for comparison with the accumulator recursion of the source. -/
def specProduct : List (String × List String) → List (List (String × String))
  | [] => [[]]
  | (name, values) :: rest =>
      values.flatMap (fun v => (specProduct rest).map (fun b => (name, v) :: b))

/-- `syn["c"] = syn["c"] / syn["c"].sum()`: every count divided by the result
set's own count sum. -/
def normalizeCounts {α : Type} (rs : List (α × ℚ)) : List (α × ℚ) :=
  rs.map (fun p => (p.1, p.2 / (rs.map Prod.snd).sum))

/-- First-match lookup of a feature's value (the result sets come from
`GROUP BY`, so feature keys are unique and first-match agrees with the
pandas index lookup). -/
def lookupFeature {α : Type} [DecidableEq α] (f : α) : List (α × ℚ) → Option ℚ
  | [] => none
  | (g, c) :: rest => if g = f then some c else lookupFeature f rest

/-- `reindex(all_features).fillna(0)` read at one feature: the stored value,
or `0` when the feature is absent on this side. -/
def probAt {α : Type} [DecidableEq α] (rs : List (α × ℚ)) (f : α) : ℚ :=
  (lookupFeature f rs).getD 0

/-- `all_features = set(syn["f"].values) | set(real["f"].values)`: the union
of observed feature values.  A Python `set` iterates in an unspecified
order and the downstream distance is order-invariant, so the union is
embedded as the deduplicated concatenation. -/
def allFeatures {α : Type} [DecidableEq α] (syn real : List (α × ℚ)) : List α :=
  (syn.map Prod.fst ++ real.map Prod.fst).dedup

/-- The dense probability vector of one side over the shared feature list. -/
def alignVec {α : Type} [DecidableEq α] (feats : List α) (rs : List (α × ℚ)) :
    List ℚ :=
  feats.map (probAt rs)

/-- Empirical CDF with uniform weights, as in scipy's `_cdf_distance`:
the fraction of samples `≤ t` (scipy's `searchsorted(..., side="right")`). -/
def cdfAt (u : List ℚ) (t : ℚ) : ℚ :=
  ((u.filter (fun x => decide (x ≤ t))).length : ℚ) / (u.length : ℚ)

/-- The sum `Σ |F_u(aᵢ) - F_v(aᵢ)| · (aᵢ₊₁ - aᵢ)` over consecutive entries of
the sorted merged sample list, as in scipy's `_cdf_distance` with `p = 1`. -/
def wSum (u v : List ℚ) : List ℚ → ℚ
  | a :: b :: rest => |cdfAt u a - cdfAt v a| * (b - a) + wSum u v (b :: rest)
  | _ => 0

/-- `scipy.stats.wasserstein_distance(u, v)` (no weights): first-order
distance between the empirical distributions of the two sample lists. -/
def wassersteinDistance (u v : List ℚ) : ℚ :=
  wSum u v (List.insertionSort (· ≤ ·) (u ++ v))

/-- `_calculate_wasserstein`: normalizes both result sets, aligns them on the
union of observed features with zero fill, and calls
`stats.wasserstein_distance(syn["c"], real["c"])` — the aligned probability
vectors are passed as the sample VALUES (with uniform weights), exactly as
the source does. -/
def calculateWasserstein {α : Type} [DecidableEq α] (syn real : List (α × ℚ)) : ℚ :=
  wassersteinDistance
    (alignVec (allFeatures syn real) (normalizeCounts syn))
    (alignVec (allFeatures syn real) (normalizeCounts real))

/-- Spec-side weighted first-order Wasserstein sum on a sorted support:
`accP`/`accQ` carry the cumulative probability mass of each side. -/
def specWSum (p q : ℚ → ℚ) (accP accQ : ℚ) : List ℚ → ℚ
  | a :: b :: rest =>
      |(accP + p a) - (accQ + q a)| * (b - a) +
        specWSum p q (accP + p a) (accQ + q a) (b :: rest)
  | _ => 0

/-- Spec-side distance ("treating the aligned feature-value positions as
sample points and the aligned probabilities as sample weights"): the
first-order Wasserstein distance between the two normalized distributions
over the sorted union support, for comparison with `calculateWasserstein`. -/
def specAlignedDistance (syn real : List (ℚ × ℚ)) : ℚ :=
  specWSum (probAt (normalizeCounts syn)) (probAt (normalizeCounts real)) 0 0
    (List.insertionSort (· ≤ ·) (allFeatures syn real))

/-- Python `dict` insertion for `results[query_template.name] = ...`:
an existing key keeps its position and gets the new value, a new key is
appended. -/
def dictInsert (m : List (String × ℚ)) (k : String) (v : ℚ) : List (String × ℚ) :=
  if m.any (fun p => p.1 = k) then
    m.map (fun p => if p.1 = k then (k, v) else p)
  else m ++ [(k, v)]

/-- The inner loop of `compare_traces` for one template: execute each binding
against both tables, skip bindings where either side is empty, collect the
distances.  (`_calculate_wasserstein` never returns `None`, so the source's
`if distance is not None` guard always appends.) -/
def perTemplateDistances {α : Type} [DecidableEq α] (db : String → List (α × ℚ))
    (qt : QueryTemplate) (table1 table2 : String) :
    List (List (String × String)) → Except FormatError (List ℚ)
  | [] => Except.ok []
  | b :: rest => do
      let syn ← executeQuery db qt.query table1 b
      let real ← executeQuery db qt.query table2 b
      let tail ← perTemplateDistances db qt table1 table2 rest
      Except.ok
        (if 0 < syn.length ∧ 0 < real.length then
          calculateWasserstein syn real :: tail
        else tail)

/-- The outer loop of `compare_traces`: per template, average the collected
distances when at least one was produced. -/
def compareTracesFold {α : Type} [DecidableEq α] (db : String → List (α × ℚ))
    (table1 table2 : String) (parameters : List (String × List String)) :
    List QueryTemplate → List (String × ℚ) → Except FormatError (List (String × ℚ))
  | [], acc => Except.ok acc
  | qt :: rest, acc => do
      let ds ← perTemplateDistances db qt table1 table2
        (iterateParameters qt.query parameters)
      compareTracesFold db table1 table2 parameters rest
        (if ds.isEmpty then acc
         else dictInsert acc qt.name (ds.sum / (ds.length : ℚ)))

/-- `queries = queries or self.default_queries`: `None` and the empty list
are both falsy and fall back to the defaults. -/
def resolveQueries (defaults : List QueryTemplate) :
    Option (List QueryTemplate) → List QueryTemplate
  | none => defaults
  | some qs => if qs.isEmpty then defaults else qs

/-- The ten built-in templates of `TraceComparator.__init__` (query text with
whitespace condensed; `\x27` is the SQL single quote). -/
def defaultQueries : List QueryTemplate :=
  [ { name := "error_traces"
      query := "SELECT S1.startTime / 3600 as f, COUNT(*) as c FROM {table_name} as S1, {table_name} as S2 WHERE S1.serviceName = \x27{entry_point}\x27 AND S1.traceId = S2.traceId AND S2.status = 1 GROUP BY S1.startTime / 3600;"
      relevantIncidents := ["crush", "packet_loss"]
      description := some "Find traces of a service that having an error" },
    { name := "attribute_traces"
      query := "SELECT S2.{attr_name} as f, COUNT(*) as c FROM {table_name} as S1, {table_name} as S2 WHERE S1.serviceName = \x27{entry_point}\x27 AND S1.traceId = S2.traceId GROUP BY S2.{attr_name};"
      relevantIncidents := ["crush", "packet_loss"]
      description := some "Find traces that have a particular attribute" },
    { name := "system_architecture"
      query := "SELECT S1.startTime / 3600 as f, COUNT(*) as c FROM {table_name} as S1, {table_name} as S2 Where S1.spanId = S2.parentId AND S1.serviceName = \x27{service_name}\x27 AND S2.serviceName = \x27{service_name2}\x27 GROUP BY S1.startTime / 3600;"
      relevantIncidents := ["crush", "packet_loss"]
      description := some "Discover architecture of the whole system" },
    { name := "bottlenecks"
      query := "SELECT ROUND((S2.endTime - S2.startTime) / (S1.endTime - S1.startTime), 1) AS f, count(*) as c FROM {table_name} as S1, {table_name} as S2 WHERE S1.serviceName = \x27{entry_point}\x27 AND S2.serviceName = \x27{service_name}\x27 AND S1.traceId = S2.traceId GROUP BY f;"
      relevantIncidents := ["cpu_load", "disk_io_stress", "latency", "memory_stress"]
      description := some "Find bottlenecks" },
    { name := "red_rate"
      query := "SELECT startTime / 3600 as f, COUNT(*) as c FROM {table_name} WHERE serviceName = \x27{service_name}\x27 GROUP BY startTime / 3600;"
      relevantIncidents := ["crush", "packet_loss", "cpu_load", "disk_io_stress", "latency", "memory_stress"]
      description := some "RED metrics - rate" },
    { name := "red_error"
      query := "SELECT endTime - startTime as f, COUNT(*) as c FROM {table_name} WHERE serviceName = \x27{service_name}\x27 AND status = 1 GROUP BY endTime - startTime;"
      relevantIncidents := ["crush", "packet_loss", "cpu_load", "disk_io_stress", "latency", "memory_stress"]
      description := some "RED metrics - error" },
    { name := "red_duration"
      query := "SELECT endTime - startTime as f, COUNT(*) as c FROM {table_name} WHERE serviceName = \x27{service_name}\x27 GROUP BY endTime - startTime;"
      relevantIncidents := ["crush", "packet_loss", "cpu_load", "disk_io_stress", "latency", "memory_stress"]
      description := some "RED metrics - duration" },
    { name := "attribute_frequency"
      query := "SELECT {attr_name} as f, count(*) as c FROM {table_name} GROUP BY {attr_name};"
      relevantIncidents := ["crush", "packet_loss", "cpu_load", "disk_io_stress", "latency", "memory_stress"]
      description := some "Frequency of an attribute" },
    { name := "attribute_max_window"
      query := "SELECT startTime / 3600 as f, MAX({int_attr_name}) as c FROM {table_name} Where serviceName = \x27{service_name}\x27 GROUP BY startTime / 3600;"
      relevantIncidents := ["crush", "packet_loss"]
      description := some "Max value of an attribute for every 5 minute window" },
    { name := "filtered_attribute_frequency"
      query := "SELECT {attr_name} as f, count(*) as c FROM {table_name} Where serviceName = \x27{service_name}\x27 GROUP BY {attr_name};"
      relevantIncidents := ["crush", "packet_loss"]
      description := some "Frequency of an attribute after filtering by another attribute" } ]

/-- `compare_traces(table1, table2, parameters, queries=None)`: the public
entry point of `TraceComparator`. -/
def compareTraces {α : Type} [DecidableEq α] (db : String → List (α × ℚ))
    (table1 table2 : String) (parameters : List (String × List String))
    (queries : Option (List QueryTemplate)) :
    Except FormatError (List (String × ℚ)) :=
  compareTracesFold db table1 table2 parameters
    (resolveQueries defaultQueries queries) []

/-! ### Properties of the embedded scipy distance -/

/-- The empirical CDF only depends on the sample list up to permutation. -/
theorem cdfAt_perm {u u' : List ℚ} (h : u.Perm u') (t : ℚ) :
    cdfAt u t = cdfAt u' t := by
  unfold cdfAt
  rw [(h.filter _).length_eq, h.length_eq]

/-- The CDF-difference sum only depends on the two CDFs. -/
theorem wSum_congr {u u' v v' : List ℚ} (hu : ∀ t, cdfAt u t = cdfAt u' t)
    (hv : ∀ t, cdfAt v t = cdfAt v' t) : ∀ l, wSum u v l = wSum u' v' l
  | [] => rfl
  | [_] => rfl
  | a :: b :: rest => by
      simp only [wSum, hu a, hv a]
      rw [wSum_congr hu hv (b :: rest)]

/-- The CDF-difference sum is symmetric in the two samples. -/
theorem wSum_comm (u v : List ℚ) : ∀ l, wSum u v l = wSum v u l
  | [] => rfl
  | [_] => rfl
  | a :: b :: rest => by
      simp only [wSum, abs_sub_comm (cdfAt u a)]
      rw [wSum_comm u v (b :: rest)]

/-- The CDF-difference sum vanishes when the two samples share a CDF. -/
theorem wSum_eq_zero {u v : List ℚ} (h : ∀ t, cdfAt u t = cdfAt v t) :
    ∀ l, wSum u v l = 0
  | [] => rfl
  | [_] => rfl
  | a :: b :: rest => by
      simp only [wSum, h a, sub_self, abs_zero, zero_mul, zero_add]
      exact wSum_eq_zero h (b :: rest)

/-- Sorting is invariant under permuting the input. -/
theorem insertionSort_perm_congr {l l' : List ℚ} (h : l.Perm l') :
    List.insertionSort (· ≤ ·) l = List.insertionSort (· ≤ ·) l' :=
  List.eq_of_perm_of_sorted
    ((List.perm_insertionSort _ _).trans (h.trans (List.perm_insertionSort _ _).symm))
    (List.sorted_insertionSort _ _) (List.sorted_insertionSort _ _)

/-- The scipy distance is symmetric. -/
theorem wassersteinDistance_comm (u v : List ℚ) :
    wassersteinDistance u v = wassersteinDistance v u := by
  unfold wassersteinDistance
  rw [insertionSort_perm_congr (List.perm_append_comm : List.Perm (u ++ v) (v ++ u))]
  exact wSum_comm u v _

/-- The scipy distance only depends on the samples up to permutation. -/
theorem wassersteinDistance_perm {u u' v v' : List ℚ} (hu : u.Perm u')
    (hv : v.Perm v') : wassersteinDistance u v = wassersteinDistance u' v' := by
  unfold wassersteinDistance
  rw [insertionSort_perm_congr (hu.append hv)]
  exact wSum_congr (cdfAt_perm hu) (cdfAt_perm hv) _

/-- The scipy distance of a sample with itself is `0`. -/
theorem wassersteinDistance_self (u : List ℚ) : wassersteinDistance u u = 0 :=
  wSum_eq_zero (fun _ => rfl) _

/-- If the two normalized, aligned sides give the same probability at every
feature, `_calculate_wasserstein` returns `0`. -/
theorem calculateWasserstein_eq_zero {α : Type} [DecidableEq α]
    {syn real : List (α × ℚ)}
    (h : ∀ f, probAt (normalizeCounts syn) f = probAt (normalizeCounts real) f) :
    calculateWasserstein syn real = 0 := by
  unfold calculateWasserstein
  have : alignVec (allFeatures syn real) (normalizeCounts syn) =
      alignVec (allFeatures syn real) (normalizeCounts real) :=
    List.map_congr_left (fun f _ => h f)
  rw [this]
  exact wassersteinDistance_self _

/-- C8: for every pair of result sets, the computed distance is symmetric:
`_calculate_wasserstein(A, B) = _calculate_wasserstein(B, A)`. -/
theorem calculateWasserstein_symm {α : Type} [DecidableEq α]
    (syn real : List (α × ℚ)) :
    calculateWasserstein syn real = calculateWasserstein real syn := by
  unfold calculateWasserstein
  have hperm : (allFeatures syn real).Perm (allFeatures real syn) := by
    refine (List.perm_ext_iff_of_nodup (List.nodup_dedup _) (List.nodup_dedup _)).mpr ?_
    intro a
    simp only [allFeatures, List.mem_dedup, List.mem_append]
    exact or_comm
  rw [wassersteinDistance_comm]
  exact wassersteinDistance_perm (hperm.map _) (hperm.map _)

/-- C5: for result set A = \x7b(0,10), (1,10)\x7d and result set B = \x7b(0,20)\x7d the
computed distance is exactly `1/2` (A normalizes to probabilities 1/2, 1/2
and B aligns to 1, 0 on the union support). -/
theorem calculateWasserstein_scenario_half :
    calculateWasserstein [((0:ℚ), (10:ℚ)), ((1:ℚ), (10:ℚ))] [((0:ℚ), (20:ℚ))] = 1/2 := by
  with_unfolding_all decide

/-- C1: the source passes the aligned probability vectors to
`scipy.stats.wasserstein_distance` as the sample values (uniform weights),
not as weights over the feature positions.  At A = [(0,1)], B = [(5,1)] the
code computes `0` although the claimed position-weighted first-order
Wasserstein distance of the two aligned distributions is `5` (all mass moves
from feature 0 to feature 5), so the computed value is not the distance the
claim describes and `0` is returned for two distributions of different
shape. -/
theorem calculateWasserstein_ignores_positions :
    calculateWasserstein [((0:ℚ), (1:ℚ))] [((5:ℚ), (1:ℚ))] = 0 ∧
    specAlignedDistance [((0:ℚ), (1:ℚ))] [((5:ℚ), (1:ℚ))] = 5 := by
  constructor <;> with_unfolding_all decide

/-! ### Properties of parameter expansion and query formatting -/

/-- Propagation of `Except.ok` through a `do` bind. -/
theorem bind_ok_eq {ε α β : Type} (a : α) (f : α → Except ε β) :
    ((Except.ok a : Except ε α) >>= f) = f a := rfl

/-- Propagation of `Except.error` through a `do` bind. -/
theorem bind_error_eq {ε α β : Type} (e : ε) (f : α → Except ε β) :
    ((Except.error e : Except ε α) >>= f) = Except.error e := rfl

/-- The accumulator recursion `_inner` is the direct cartesian product with
the accumulated partial binding prepended. -/
theorem innerBindings_eq (acc : List (String × String)) :
    ∀ l, innerBindings acc l = (specProduct l).map (fun b => acc ++ b)
  | [] => by simp [innerBindings, specProduct]
  | (name, values) :: rest => by
      simp only [innerBindings, specProduct, List.map_flatMap]
      refine congrArg _ (funext fun v => ?_)
      rw [innerBindings_eq (acc ++ [(name, v)]) rest]
      simp [List.map_map, Function.comp_def]

/-- `_iterate_parameters` enumerates exactly the cartesian product of the
relevant catalog entries. -/
theorem iterateParameters_eq_specProduct (q : String)
    (ps : List (String × List String)) :
    iterateParameters q ps = specProduct (relevantParams q ps) := by
  unfold iterateParameters
  rw [innerBindings_eq]
  simp

/-- Every binding of the cartesian product binds exactly the listed
parameter names, in order. -/
theorem specProduct_keys :
    ∀ (l : List (String × List String)) (b : List (String × String)),
      b ∈ specProduct l → b.map Prod.fst = l.map Prod.fst
  | [], b, hb => by simp only [specProduct, List.mem_singleton] at hb; simp [hb]
  | (name, values) :: rest, b, hb => by
      simp only [specProduct, List.mem_flatMap, List.mem_map] at hb
      obtain ⟨v, _, b', hb', rfl⟩ := hb
      simp [specProduct_keys rest b' hb']

/-- The cartesian product is non-empty when every candidate list is. -/
theorem specProduct_ne_nil :
    ∀ (l : List (String × List String)), (∀ e ∈ l, e.2 ≠ []) →
      specProduct l ≠ []
  | [], _ => by simp [specProduct]
  | (name, values) :: rest, h => by
      simp only [specProduct, ne_eq, List.flatMap_eq_nil_iff, not_forall]
      rcases List.exists_mem_of_ne_nil values (h _ (List.mem_cons_self _ _)) with ⟨v, hv⟩
      refine ⟨v, hv, ?_⟩
      simp only [List.map_eq_nil_iff]
      exact specProduct_ne_nil rest (fun e he => h e (List.mem_cons_of_mem _ he))

/-- `lookupStr` succeeds exactly on the bound keys. -/
theorem lookupStr_isSome_iff (n : String) :
    ∀ b : List (String × String), (lookupStr n b).isSome = true ↔ n ∈ b.map Prod.fst
  | [] => by simp [lookupStr]
  | (k, v) :: rest => by
      simp only [lookupStr, List.map_cons, List.mem_cons]
      by_cases hk : k = n
      · simp [hk]
      · simp [hk, Ne.symm hk, lookupStr_isSome_iff n rest]

/-- If formatting succeeded, every placeholder of the template was bound. -/
theorem formatCore_ok_covers (bnd : List (String × String)) :
    ∀ (cs : List Char) (m : Option (List Char)) (s : List Char),
      formatCore bnd m cs = Except.ok s →
      ∀ n ∈ scanPH m cs, (lookupStr n bnd).isSome = true
  | [], m, s, _, n, hn => absurd hn (by cases m <;> simp [scanPH])
  | c :: rest, none, s, h, n, hn => by
      simp only [formatCore] at h
      simp only [scanPH] at hn
      by_cases hc : c = '\x7b'
      · rw [if_pos hc] at h
        rw [if_pos hc] at hn
        exact formatCore_ok_covers bnd rest (some []) s h n hn
      · rw [if_neg hc] at h
        rw [if_neg hc] at hn
        match hrec : formatCore bnd none rest with
        | Except.ok s' => exact formatCore_ok_covers bnd rest none s' hrec n hn
        | Except.error e => rw [hrec] at h; exact absurd h (by simp [Except.map])
  | c :: rest, some acc, s, h, n, hn => by
      simp only [formatCore] at h
      simp only [scanPH] at hn
      by_cases hc : c = '\x7d'
      · rw [if_pos hc] at h
        rw [if_pos hc] at hn
        match hl : lookupStr (String.mk acc.reverse) bnd with
        | none => rw [hl] at h; exact absurd h (by simp)
        | some v =>
            rw [hl] at h
            rcases List.mem_cons.mp hn with rfl | hn'
            · simp [hl]
            · match hrec : formatCore bnd none rest with
              | Except.ok s' => exact formatCore_ok_covers bnd rest none s' hrec n hn'
              | Except.error e => rw [hrec] at h; exact absurd h (by simp [Except.map])
      · rw [if_neg hc] at h
        rw [if_neg hc] at hn
        exact formatCore_ok_covers bnd rest (some (c :: acc)) s h n hn

/-- Formatting fails only with a missing-parameter error (Python `KeyError`). -/
theorem formatCore_error_shape (bnd : List (String × String)) :
    ∀ (cs : List Char) (m : Option (List Char)) (e : FormatError),
      formatCore bnd m cs = Except.error e →
      ∃ n, e = FormatError.missingParameter n
  | [], m, e, h => by simp [formatCore] at h
  | c :: rest, none, e, h => by
      simp only [formatCore] at h
      by_cases hc : c = '\x7b'
      · rw [if_pos hc] at h
        exact formatCore_error_shape bnd rest (some []) e h
      · rw [if_neg hc] at h
        match hrec : formatCore bnd none rest with
        | Except.ok s' => rw [hrec] at h; exact absurd h (by simp [Except.map])
        | Except.error e' =>
            rw [hrec] at h
            simp only [Except.map] at h
            cases h
            exact formatCore_error_shape bnd rest none _ hrec
  | c :: rest, some acc, e, h => by
      simp only [formatCore] at h
      by_cases hc : c = '\x7d'
      · rw [if_pos hc] at h
        match hl : lookupStr (String.mk acc.reverse) bnd with
        | none =>
            rw [hl] at h
            cases h
            exact ⟨_, rfl⟩
        | some v =>
            rw [hl] at h
            match hrec : formatCore bnd none rest with
            | Except.ok s' => rw [hrec] at h; exact absurd h (by simp [Except.map])
            | Except.error e' =>
                rw [hrec] at h
                simp only [Except.map] at h
                cases h
                exact formatCore_error_shape bnd rest none _ hrec
      · rw [if_neg hc] at h
        exact formatCore_error_shape bnd rest (some (c :: acc)) e h

/-- If every placeholder of the template is bound, formatting succeeds. -/
theorem formatCore_ok_of_covered (bnd : List (String × String)) :
    ∀ (cs : List Char) (m : Option (List Char)),
      (∀ n ∈ scanPH m cs, (lookupStr n bnd).isSome = true) →
      ∃ s, formatCore bnd m cs = Except.ok s
  | [], m, _ => ⟨[], by cases m <;> rfl⟩
  | c :: rest, none, h => by
      simp only [scanPH] at h
      by_cases hc : c = '\x7b'
      · rw [if_pos hc] at h
        obtain ⟨s, hs⟩ := formatCore_ok_of_covered bnd rest (some []) h
        exact ⟨s, by simp only [formatCore]; rw [if_pos hc]; exact hs⟩
      · rw [if_neg hc] at h
        obtain ⟨s, hs⟩ := formatCore_ok_of_covered bnd rest none h
        exact ⟨c :: s, by simp only [formatCore]; rw [if_neg hc, hs]; rfl⟩
  | c :: rest, some acc, h => by
      simp only [scanPH] at h
      by_cases hc : c = '\x7d'
      · rw [if_pos hc] at h
        have h1 := h _ (List.mem_cons_self _ _)
        match hl : lookupStr (String.mk acc.reverse) bnd with
        | none => rw [hl] at h1; simp at h1
        | some v =>
            obtain ⟨s, hs⟩ :=
              formatCore_ok_of_covered bnd rest none
                (fun n hn => h n (List.mem_cons_of_mem _ hn))
            exact ⟨v.data ++ s,
              by simp only [formatCore]; rw [if_pos hc, hl, hs]; rfl⟩
      · rw [if_neg hc] at h
        obtain ⟨s, hs⟩ := formatCore_ok_of_covered bnd rest (some (c :: acc)) h
        exact ⟨s, by simp only [formatCore]; rw [if_neg hc]; exact hs⟩

/-- A key absent from the bindings has no lookup result. -/
theorem lookupStr_eq_none {n : String} {b : List (String × String)}
    (h : n ∉ b.map Prod.fst) : lookupStr n b = none := by
  have := (lookupStr_isSome_iff n b).not.mpr h
  simpa [Option.not_isSome_iff_eq_none] using this

/-- A catalog key occurring in the template survives the relevance filter. -/
theorem mem_relevantParams_keys {q : String} {ps : List (String × List String)}
    {n : String} (hn : n ∈ ps.map Prod.fst) (hq : n ∈ scanPlaceholders q) :
    n ∈ (relevantParams q ps).map Prod.fst := by
  obtain ⟨e, he, rfl⟩ := List.mem_map.mp hn
  exact List.mem_map.mpr ⟨e, List.mem_filter.mpr ⟨he, by simpa using hq⟩, rfl⟩

/-- Relevant keys are catalog keys. -/
theorem relevantParams_keys_subset {q : String} {ps : List (String × List String)}
    {n : String} (hn : n ∈ (relevantParams q ps).map Prod.fst) :
    n ∈ ps.map Prod.fst := by
  obtain ⟨e, he, rfl⟩ := List.mem_map.mp hn
  exact List.mem_map.mpr ⟨e, (List.filter_sublist ps).subset he, rfl⟩

/-- The relevance filter is idempotent. -/
theorem relevantParams_idem (q : String) (ps : List (String × List String)) :
    relevantParams q (relevantParams q ps) = relevantParams q ps := by
  simp [relevantParams, List.filter_filter]

/-- C4: parameter expansion enumerates exactly the cartesian product of the
candidate-value lists of the catalog parameters occurring in the template
text, one binding per combination, in nested iteration order with the first
catalog parameter varying slowest; the catalog `a -> [1,2], b -> [x,y]`
yields its four bindings in that order, and a template referencing no
catalog parameters yields exactly the empty binding. -/
theorem iterateParameters_is_cartesian_product :
    (∀ q ps, iterateParameters q ps = specProduct (relevantParams q ps))
    ∧ iterateParameters "{a} {b}" [("a", ["1", "2"]), ("b", ["x", "y"])] =
        [[("a", "1"), ("b", "x")], [("a", "1"), ("b", "y")],
         [("a", "2"), ("b", "x")], [("a", "2"), ("b", "y")]]
    ∧ (∀ q ps, relevantParams q ps = [] → iterateParameters q ps = [[]]) := by
  refine ⟨iterateParameters_eq_specProduct, by decide, fun q ps h => ?_⟩
  rw [iterateParameters_eq_specProduct, h]
  rfl

/-- Witness for C4: a template referencing none of the catalog entries
expands to exactly the empty binding. -/
theorem iterateParameters_is_cartesian_product_witness :
    iterateParameters "SELECT 1 FROM {table_name}" [("unused", ["v"])] = [[]] :=
  iterateParameters_is_cartesian_product.2.2 "SELECT 1 FROM {table_name}"
    [("unused", ["v"])] (by decide)

/-- C6 (counterexample): with a catalog entry named `table_name` and a
template containing the table-name placeholder, the expander binds
`table_name` from the catalog (it is not reserved), and execution fails with
the duplicate keyword argument error, so the whole comparison call fails. -/
theorem tableName_is_bound_from_catalog :
    iterateParameters "SELECT f FROM {table_name}" [("table_name", ["X"])] =
      [[("table_name", "X")]]
    ∧ executeQuery (fun _ => ([] : List (ℚ × ℚ))) "SELECT f FROM {table_name}" "t1"
        [("table_name", "X")] = Except.error FormatError.duplicateTableName
    ∧ compareTraces (fun _ => [((0:ℚ), (1:ℚ))]) "A" "B" [("table_name", ["X"])]
        (some [⟨"q1", "SELECT f FROM {table_name}", [], none⟩]) =
      Except.error FormatError.duplicateTableName :=
  ⟨by decide, by decide, by decide⟩

/-- C6 (amended): catalog entries whose names do not occur in the template
text are silently ignored by expansion, and execution succeeds for every
produced binding whenever each placeholder is either `table_name` (bound by
the executor to the dataset identifier) or a catalog key — provided the
reserved name was not itself bound from the catalog; a binding carrying a
`table_name` key makes execution fail with the duplicate keyword error. -/
theorem unusedCatalogEntries_ignored :
    (∀ q ps, iterateParameters q ps = iterateParameters q (relevantParams q ps))
    ∧ (∀ (α : Type) (db : String → List (α × ℚ)) (q t : String)
        (params : List (String × String)), "table_name" ∈ params.map Prod.fst →
        executeQuery db q t params = Except.error FormatError.duplicateTableName)
    ∧ (∀ (α : Type) (db : String → List (α × ℚ)) (q t : String)
        (ps : List (String × List String)) (b : List (String × String)),
        b ∈ iterateParameters q ps →
        "table_name" ∉ (relevantParams q ps).map Prod.fst →
        (∀ n ∈ scanPlaceholders q, n = "table_name" ∨ n ∈ ps.map Prod.fst) →
        ∃ rs, executeQuery db q t b = Except.ok rs) := by
  refine ⟨fun q ps => ?_, fun α db q t params hmem => ?_, fun α db q t ps b hb htn hcov => ?_⟩
  · rw [iterateParameters_eq_specProduct, iterateParameters_eq_specProduct,
      relevantParams_idem]
  · obtain ⟨e, he, he1⟩ := List.mem_map.mp hmem
    unfold executeQuery
    rw [if_pos]
    exact List.any_eq_true.mpr ⟨e, he, by simp [he1]⟩
  · rw [iterateParameters_eq_specProduct] at hb
    have hkeys : b.map Prod.fst = (relevantParams q ps).map Prod.fst :=
      specProduct_keys _ b hb
    have hguard : b.any (fun p => p.1 = "table_name") = false := by
      rw [List.any_eq_false]
      intro e he
      simp only [decide_eq_true_eq]
      intro h1
      exact htn (hkeys ▸ List.mem_map.mpr ⟨e, he, h1⟩)
    have hcover : ∀ n ∈ scanPH none q.data,
        (lookupStr n (("table_name", t) :: b)).isSome = true := by
      intro n hn
      rcases hcov n hn with rfl | hmem2
      · simp [lookupStr]
      · have : n ∈ b.map Prod.fst := by
          rw [hkeys]
          exact mem_relevantParams_keys hmem2 hn
        by_cases heqtn : "table_name" = n
        · simp [lookupStr, heqtn]
        · simp only [lookupStr, if_neg heqtn]
          exact (lookupStr_isSome_iff n b).mpr this
    obtain ⟨s, hs⟩ := formatCore_ok_of_covered (("table_name", t) :: b) q.data none hcover
    refine ⟨db (String.mk s), ?_⟩
    unfold executeQuery
    rw [if_neg (by simp [hguard]), hs]

/-- Witness for C6: a duplicate `table_name` binding fails, and a binding
produced from an irrelevant catalog is executed successfully. -/
theorem unusedCatalogEntries_ignored_witness :
    executeQuery (fun _ => ([] : List (ℚ × ℚ))) "q" "t" [("table_name", "X")] =
      Except.error FormatError.duplicateTableName
    ∧ ∃ rs, executeQuery (fun _ => [((0:ℚ), (1:ℚ))]) "SELECT f FROM {table_name}" "t"
        [] = Except.ok rs :=
  ⟨unusedCatalogEntries_ignored.2.1 ℚ _ "q" "t" [("table_name", "X")] (by decide),
   unusedCatalogEntries_ignored.2.2 ℚ _ "SELECT f FROM {table_name}" "t" [] []
     (by decide) (by decide) (by decide)⟩

/-- C2 (counterexample): for a template referencing `attr_name` and a catalog
lacking it, expansion raises nothing — it yields the single binding without
the name — and the comparison's failure is the missing-parameter formatting
error (Python `KeyError`) raised inside `_execute_query`; no
`MissingParameterError` is raised during expansion (no such type exists in
the code). -/
theorem missingParameter_not_raised_during_expansion :
    iterateParameters "SELECT {attr_name} as f, count(*) as c FROM {table_name}" [] = [[]]
    ∧ executeQuery (fun _ => ([] : List (ℚ × ℚ)))
        "SELECT {attr_name} as f, count(*) as c FROM {table_name}" "t1" [] =
      Except.error (FormatError.missingParameter "attr_name") :=
  ⟨by decide, by decide⟩

/-- C2 (amended): for every template referencing a placeholder other than
`table_name` that is absent from the catalog (the catalog having non-empty
candidate lists and no `table_name` entry), expansion succeeds with at least
one binding, and the whole comparison call aborts with the missing-parameter
formatting error of `_execute_query`, raised by `str.format` — before the
query is executed against either dataset. -/
theorem comparison_aborts_on_missing_parameter {α : Type} [DecidableEq α]
    (db : String → List (α × ℚ)) (qt : QueryTemplate) (t1 t2 : String)
    (ps : List (String × List String)) (p : String)
    (hp : p ∈ scanPlaceholders qt.query) (hpt : p ≠ "table_name")
    (hmiss : p ∉ ps.map Prod.fst) (htn : "table_name" ∉ ps.map Prod.fst)
    (hvals : ∀ e ∈ ps, e.2 ≠ []) :
    iterateParameters qt.query ps ≠ []
    ∧ ∃ n, compareTraces db t1 t2 ps (some [qt]) =
        Except.error (FormatError.missingParameter n) := by
  have hne : iterateParameters qt.query ps ≠ [] := by
    rw [iterateParameters_eq_specProduct]
    exact specProduct_ne_nil _ (fun e he => hvals e ((List.filter_sublist ps).subset he))
  refine ⟨hne, ?_⟩
  obtain ⟨b, bs, hbs⟩ : ∃ b bs, iterateParameters qt.query ps = b :: bs := by
    match h : iterateParameters qt.query ps with
    | [] => exact absurd h hne
    | b :: bs => exact ⟨b, bs, rfl⟩
  have hkeys : b.map Prod.fst = (relevantParams qt.query ps).map Prod.fst := by
    refine specProduct_keys _ b ?_
    rw [← iterateParameters_eq_specProduct, hbs]
    exact List.mem_cons_self _ _
  have hbkeys : p ∉ b.map Prod.fst := by
    rw [hkeys]
    exact fun h => hmiss (relevantParams_keys_subset h)
  have hbtn : "table_name" ∉ b.map Prod.fst := by
    rw [hkeys]
    exact fun h => htn (relevantParams_keys_subset h)
  have hguard : b.any (fun e => e.1 = "table_name") = false := by
    rw [List.any_eq_false]
    intro e he
    simp only [decide_eq_true_eq]
    exact fun h1 => hbtn (List.mem_map.mpr ⟨e, he, h1⟩)
  have hnolook : lookupStr p (("table_name", t1) :: b) = none := by
    apply lookupStr_eq_none
    simp only [List.map_cons, List.mem_cons]
    rintro (h | h)
    · exact hpt h
    · exact hbkeys h
  obtain ⟨n, hfmt⟩ : ∃ n, formatCore (("table_name", t1) :: b) none qt.query.data =
      Except.error (FormatError.missingParameter n) := by
    match hF : formatCore (("table_name", t1) :: b) none qt.query.data with
    | Except.ok s =>
        have := formatCore_ok_covers _ _ _ _ hF p hp
        rw [hnolook] at this
        simp at this
    | Except.error e =>
        obtain ⟨n, rfl⟩ := formatCore_error_shape _ _ _ _ hF
        exact ⟨n, rfl⟩
  have hexec : executeQuery db qt.query t1 b =
      Except.error (FormatError.missingParameter n) := by
    unfold executeQuery
    rw [if_neg (by simp [hguard]), hfmt]
  refine ⟨n, ?_⟩
  have hper : perTemplateDistances db qt t1 t2 (iterateParameters qt.query ps) =
      Except.error (FormatError.missingParameter n) := by
    rw [hbs]
    simp only [perTemplateDistances, hexec, bind_error_eq]
  simp only [compareTraces, resolveQueries, List.isEmpty_cons, Bool.false_eq_true,
    if_false, compareTracesFold, hper, bind_error_eq]

/-- Witness for C2: the amended abort behaviour at a concrete template and
empty catalog. -/
theorem comparison_aborts_on_missing_parameter_witness :
    iterateParameters "SELECT {attr_name} as f FROM {table_name}" [] ≠ []
    ∧ ∃ n, compareTraces (fun _ => ([] : List (ℚ × ℚ))) "A" "B" []
        (some [⟨"q", "SELECT {attr_name} as f FROM {table_name}", [], none⟩]) =
        Except.error (FormatError.missingParameter n) :=
  comparison_aborts_on_missing_parameter (fun _ => ([] : List (ℚ × ℚ)))
    ⟨"q", "SELECT {attr_name} as f FROM {table_name}", [], none⟩ "A" "B" [] "attr_name"
    (by decide) (by decide) (by decide) (by decide) (by simp)

/-! ### Properties of the orchestrator -/

/-- A minimal template used to exercise the orchestrator on concrete runs. -/
def demoTemplate : QueryTemplate :=
  ⟨"q1", "SELECT f FROM {table_name}", [], none⟩

/-- A minimal data source used to exercise the orchestrator on concrete
runs: every query returns the single row (feature 0, count 1). -/
def demoDb : String → List (ℚ × ℚ) := fun _ => [((0:ℚ), (1:ℚ))]

/-- C7: for pairs of non-empty result sets whose normalized distributions
coincide the computed distance is exactly 0 — in particular for two
identical result sets, and for two result sets supported on the same single
feature value regardless of the (nonzero) count magnitudes; consequently
`compare_traces` with a single no-parameter template over two tables
returning identical non-empty counts produces exactly the map
`\x7bname: 0\x7d`. -/
theorem calculateWasserstein_zero_on_equal_shape :
    (∀ (α : Type) [DecidableEq α] (syn real : List (α × ℚ)), syn ≠ [] → real ≠ [] →
      (∀ f, probAt (normalizeCounts syn) f = probAt (normalizeCounts real) f) →
      calculateWasserstein syn real = 0)
    ∧ (∀ (α : Type) [DecidableEq α] (rs : List (α × ℚ)), rs ≠ [] →
      calculateWasserstein rs rs = 0)
    ∧ (∀ (α : Type) [DecidableEq α] (x : α) (a b : ℚ), a ≠ 0 → b ≠ 0 →
      calculateWasserstein [(x, a)] [(x, b)] = 0)
    ∧ (∀ (α : Type) [DecidableEq α] (db : String → List (α × ℚ))
        (qt : QueryTemplate) (t1 t2 : String) (ps : List (String × List String))
        (rs : List (α × ℚ)),
      iterateParameters qt.query ps = [[]] →
      executeQuery db qt.query t1 [] = Except.ok rs →
      executeQuery db qt.query t2 [] = Except.ok rs → rs ≠ [] →
      compareTraces db t1 t2 ps (some [qt]) = Except.ok [(qt.name, 0)]) := by
  refine ⟨fun α _ syn real _ _ h => calculateWasserstein_eq_zero h,
    fun α _ rs _ => calculateWasserstein_eq_zero (fun _ => rfl),
    fun α _ x a b ha hb => ?_, fun α _ db qt t1 t2 ps rs hiter hs hr hne => ?_⟩
  · apply calculateWasserstein_eq_zero
    intro f
    simp [normalizeCounts, probAt, lookupFeature, div_self ha, div_self hb]
  · have hzero : calculateWasserstein rs rs = 0 :=
      calculateWasserstein_eq_zero (fun _ => rfl)
    have hper : perTemplateDistances db qt t1 t2 [[]] = Except.ok [(0:ℚ)] := by
      simp only [perTemplateDistances, hs, hr, bind_ok_eq]
      rw [if_pos ⟨List.length_pos.mpr hne, List.length_pos.mpr hne⟩, hzero]
    simp only [compareTraces, resolveQueries, List.isEmpty_cons, Bool.false_eq_true,
      if_false, compareTracesFold, hiter, hper, bind_ok_eq]
    simp [compareTracesFold, dictInsert]

/-- Witness for C7: single-shared-feature result sets with different counts
get distance 0, and the orchestrator scenario yields the zero score map. -/
theorem calculateWasserstein_zero_on_equal_shape_witness :
    calculateWasserstein [((0:ℚ), (3:ℚ))] [((0:ℚ), (7:ℚ))] = 0
    ∧ compareTraces demoDb "A" "B" [] (some [demoTemplate]) =
        Except.ok [("q1", 0)] :=
  ⟨calculateWasserstein_zero_on_equal_shape.2.2.1 ℚ 0 3 7 (by norm_num) (by norm_num),
   calculateWasserstein_zero_on_equal_shape.2.2.2 ℚ demoDb demoTemplate "A" "B" []
     [((0:ℚ), (1:ℚ))] (by decide) (by decide) (by decide) (by decide)⟩

/-- Membership in a dict insertion: the inserted pair or an original pair. -/
theorem mem_dictInsert {m : List (String × ℚ)} {k : String} {v : ℚ}
    {p : String × ℚ} (hp : p ∈ dictInsert m k v) : p = (k, v) ∨ p ∈ m := by
  unfold dictInsert at hp
  split at hp
  · obtain ⟨q, hq, hqe⟩ := List.mem_map.mp hp
    by_cases hk : q.1 = k
    · rw [if_pos hk] at hqe
      exact Or.inl hqe.symm
    · rw [if_neg hk] at hqe
      exact Or.inr (hqe ▸ hq)
  · rcases List.mem_append.mp hp with h | h
    · exact Or.inr h
    · exact Or.inl (List.mem_singleton.mp h)

/-- Keys of a dict insertion: the inserted key or an original key. -/
theorem keys_dictInsert {m : List (String × ℚ)} {k n : String} {v : ℚ}
    (h : n ∈ (dictInsert m k v).map Prod.fst) : n = k ∨ n ∈ m.map Prod.fst := by
  obtain ⟨p, hp, rfl⟩ := List.mem_map.mp h
  rcases mem_dictInsert hp with rfl | hm
  · exact Or.inl rfl
  · exact Or.inr (List.mem_map.mpr ⟨p, hm, rfl⟩)

/-- Every pair of the accumulated result map comes from the accumulator or
from some processed template with a non-empty distance list, scored by the
arithmetic mean. -/
theorem compareTracesFold_mem {α : Type} [DecidableEq α]
    (db : String → List (α × ℚ)) (t1 t2 : String)
    (ps : List (String × List String)) :
    ∀ (qs : List QueryTemplate) (acc res : List (String × ℚ)),
      compareTracesFold db t1 t2 ps qs acc = Except.ok res →
      ∀ n s, (n, s) ∈ res → (n, s) ∈ acc ∨
        ∃ qt, qt ∈ qs ∧ qt.name = n ∧
          ∃ ds, perTemplateDistances db qt t1 t2 (iterateParameters qt.query ps) =
            Except.ok ds ∧ ds ≠ [] ∧ s = ds.sum / (ds.length : ℚ)
  | [], acc, res, h, n, s, hm => by
      simp only [compareTracesFold] at h
      cases h
      exact Or.inl hm
  | qt :: rest, acc, res, h, n, s, hm => by
      simp only [compareTracesFold] at h
      match hper : perTemplateDistances db qt t1 t2 (iterateParameters qt.query ps) with
      | Except.error e =>
          rw [hper, bind_error_eq] at h
          exact absurd h (by simp)
      | Except.ok ds =>
          rw [hper, bind_ok_eq] at h
          rcases compareTracesFold_mem db t1 t2 ps rest _ res h n s hm with
            hacc | ⟨qt2, hqt2, hname, hrest⟩
          · by_cases hds : ds.isEmpty
            · rw [if_pos hds] at hacc
              exact Or.inl hacc
            · rw [if_neg hds] at hacc
              rcases mem_dictInsert hacc with heq | hin
              · right
                obtain ⟨h1, h2⟩ := Prod.mk.injEq .. ▸ heq
                refine ⟨qt, List.mem_cons_self _ _, h1.symm, ds, hper, ?_, h2⟩
                intro hnil
                rw [hnil] at hds
                exact hds rfl
              · exact Or.inl hin
          · exact Or.inr ⟨qt2, List.mem_cons_of_mem _ hqt2, hname, hrest⟩

/-- Every key of the accumulated result map is an accumulator key or a
processed template name. -/
theorem compareTracesFold_keys {α : Type} [DecidableEq α]
    (db : String → List (α × ℚ)) (t1 t2 : String)
    (ps : List (String × List String)) :
    ∀ (qs : List QueryTemplate) (acc res : List (String × ℚ)),
      compareTracesFold db t1 t2 ps qs acc = Except.ok res →
      ∀ n, n ∈ res.map Prod.fst →
        n ∈ acc.map Prod.fst ∨ n ∈ qs.map QueryTemplate.name
  | [], acc, res, h, n, hn => by
      simp only [compareTracesFold] at h
      cases h
      exact Or.inl hn
  | qt :: rest, acc, res, h, n, hn => by
      simp only [compareTracesFold] at h
      match hper : perTemplateDistances db qt t1 t2 (iterateParameters qt.query ps) with
      | Except.error e =>
          rw [hper, bind_error_eq] at h
          exact absurd h (by simp)
      | Except.ok ds =>
          rw [hper, bind_ok_eq] at h
          rcases compareTracesFold_keys db t1 t2 ps rest _ res h n hn with hacc | hqs
          · by_cases hds : ds.isEmpty
            · rw [if_pos hds] at hacc
              exact Or.inl hacc
            · rw [if_neg hds] at hacc
              rcases keys_dictInsert hacc with rfl | hm
              · exact Or.inr (by simp)
              · exact Or.inl hm
          · exact Or.inr (List.mem_cons_of_mem _ hqs)

/-- A processed template whose distance list is empty contributes no key,
provided template names are unique. -/
theorem compareTracesFold_absent {α : Type} [DecidableEq α]
    (db : String → List (α × ℚ)) (t1 t2 : String)
    (ps : List (String × List String)) :
    ∀ (qs : List QueryTemplate) (acc res : List (String × ℚ)) (qt : QueryTemplate),
      compareTracesFold db t1 t2 ps qs acc = Except.ok res →
      qt ∈ qs →
      perTemplateDistances db qt t1 t2 (iterateParameters qt.query ps) = Except.ok [] →
      (qs.map QueryTemplate.name).Nodup →
      qt.name ∉ acc.map Prod.fst →
      qt.name ∉ res.map Prod.fst
  | [], acc, res, qt, h, hmem, _, _, hacc => absurd hmem (List.not_mem_nil qt)
  | q0 :: rest, acc, res, qt, h, hmem, hper, hnd, hacc => by
      simp only [compareTracesFold] at h
      simp only [List.map_cons, List.nodup_cons] at hnd
      rcases List.mem_cons.mp hmem with rfl | hmem2
      · rw [hper, bind_ok_eq, if_pos (by simp)] at h
        intro hres
        rcases compareTracesFold_keys db t1 t2 ps rest acc res h _ hres with h1 | h1
        · exact hacc h1
        · exact hnd.1 h1
      · match hper0 : perTemplateDistances db q0 t1 t2 (iterateParameters q0.query ps) with
        | Except.error e =>
            rw [hper0, bind_error_eq] at h
            exact absurd h (by simp)
        | Except.ok ds =>
            rw [hper0, bind_ok_eq] at h
            refine compareTracesFold_absent db t1 t2 ps rest _ res qt h hmem2 hper hnd.2 ?_
            intro hk
            by_cases hds : ds.isEmpty
            · rw [if_pos hds] at hk
              exact hacc hk
            · rw [if_neg hds] at hk
              rcases keys_dictInsert hk with heq | hm
              · refine hnd.1 ?_
                rw [← heq]
                exact List.mem_map.mpr ⟨qt, hmem2, rfl⟩
              · exact hacc hm

/-- C3: in every mapping returned by `compare_traces`, each score is the
arithmetic mean of a non-empty collection of per-binding distances of one of
the given templates; a binding for which either side's result set is empty
contributes no distance (skipped, not an error); and, template names being
unique, a template all of whose bindings were skipped is absent from the
mapping. -/
theorem compareTraces_scores_are_means {α : Type} [DecidableEq α]
    (db : String → List (α × ℚ)) (t1 t2 : String)
    (ps : List (String × List String)) (qs : List QueryTemplate)
    (res : List (String × ℚ)) (hne : qs ≠ [])
    (hok : compareTraces db t1 t2 ps (some qs) = Except.ok res) :
    (∀ n s, (n, s) ∈ res → ∃ qt, qt ∈ qs ∧ qt.name = n ∧
      ∃ ds, perTemplateDistances db qt t1 t2 (iterateParameters qt.query ps) =
        Except.ok ds ∧ ds ≠ [] ∧ s = ds.sum / (ds.length : ℚ))
    ∧ (∀ qt, qt ∈ qs →
      perTemplateDistances db qt t1 t2 (iterateParameters qt.query ps) = Except.ok [] →
      (qs.map QueryTemplate.name).Nodup → qt.name ∉ res.map Prod.fst)
    ∧ (∀ (qt : QueryTemplate) b rest syn real,
      executeQuery db qt.query t1 b = Except.ok syn →
      executeQuery db qt.query t2 b = Except.ok real →
      (syn = [] ∨ real = []) →
      perTemplateDistances db qt t1 t2 (b :: rest) =
        perTemplateDistances db qt t1 t2 rest) := by
  have hres : resolveQueries defaultQueries (some qs) = qs := by
    match qs, hne with
    | q :: qs2, _ => rfl
  rw [compareTraces, hres] at hok
  refine ⟨fun n s hm => ?_, fun qt hmem hper hnd => ?_, fun qt b rest syn real hs hr he => ?_⟩
  · rcases compareTracesFold_mem db t1 t2 ps qs [] res hok n s hm with hacc | hgood
    · exact absurd hacc (List.not_mem_nil _)
    · exact hgood
  · exact compareTracesFold_absent db t1 t2 ps qs [] res qt hok hmem hper hnd
      (by simp)
  · have hcond : ¬(0 < syn.length ∧ 0 < real.length) := by
      rcases he with rfl | rfl <;> simp
    simp only [perTemplateDistances, hs, hr, bind_ok_eq]
    match hrec : perTemplateDistances db qt t1 t2 rest with
    | Except.error e => rw [bind_error_eq]
    | Except.ok tail => rw [bind_ok_eq, if_neg hcond]

/-- Witness for C3: the mean/absence/skip properties instantiated at a
concrete one-template run. -/
theorem compareTraces_scores_are_means_witness :
    (∀ n s, (n, s) ∈ [("q1", (0:ℚ))] → ∃ qt, qt ∈ [demoTemplate] ∧ qt.name = n ∧
      ∃ ds, perTemplateDistances demoDb qt "A" "B" (iterateParameters qt.query []) =
        Except.ok ds ∧ ds ≠ [] ∧ s = ds.sum / (ds.length : ℚ))
    ∧ (∀ qt, qt ∈ [demoTemplate] →
      perTemplateDistances demoDb qt "A" "B" (iterateParameters qt.query []) =
        Except.ok [] →
      ([demoTemplate].map QueryTemplate.name).Nodup →
      qt.name ∉ [("q1", (0:ℚ))].map Prod.fst)
    ∧ (∀ (qt : QueryTemplate) b rest syn real,
      executeQuery demoDb qt.query "A" b = Except.ok syn →
      executeQuery demoDb qt.query "B" b = Except.ok real →
      (syn = [] ∨ real = []) →
      perTemplateDistances demoDb qt "A" "B" (b :: rest) =
        perTemplateDistances demoDb qt "A" "B" rest) :=
  compareTraces_scores_are_means demoDb "A" "B" [] [demoTemplate] [("q1", 0)]
    (by simp) (by with_unfolding_all decide)

/-- C10: an explicitly empty template list is falsy in
`queries = queries or self.default_queries`, so it is replaced by the
built-in default set — the call behaves exactly like passing `None`, and
the ten default templates are the ones expanded and executed. -/
theorem emptyQueryList_falls_back_to_defaults :
    (∀ (α : Type) [DecidableEq α] (db : String → List (α × ℚ)) (t1 t2 : String)
      (ps : List (String × List String)),
      compareTraces db t1 t2 ps (some []) = compareTraces db t1 t2 ps none)
    ∧ resolveQueries defaultQueries (some []) = defaultQueries
    ∧ defaultQueries.length = 10
    ∧ defaultQueries.map QueryTemplate.name =
        ["error_traces", "attribute_traces", "system_architecture", "bottlenecks",
         "red_rate", "red_error", "red_duration", "attribute_frequency",
         "attribute_max_window", "filtered_attribute_frequency"] :=
  ⟨fun _ _ _ _ _ _ => rfl, rfl, rfl, rfl⟩
